import Mathlib

/-!
Verification of the CBOM comparison analyzer (`src/cbom_analyzer.py`).

We shallowly embed the analysis core: JSON values, the per-file analyzer
`analyze_single_cbom`, the batch driver `analyze_all_cboms`, the join in
`generate_comparison_report`, the statistics in `_calculate_statistics`,
and the `Component_Types` flattening of `export_to_csv` together with its
reconstruction in `load_and_visualize_csv`.

Python exceptions are modelled with `Except String`; a caught exception in
`analyze_all_cboms` becomes a structured error record, as in the source.
-/

/-- A JSON value as produced by Python's `json.load`: `null`, booleans,
numbers, strings, arrays and objects (association lists of string keys). -/
inductive Json where
  | null : Json
  | bool (b : Bool) : Json
  | num (q : ℚ) : Json
  | str (s : String) : Json
  | arr (xs : List Json) : Json
  | obj (kvs : List (String × Json)) : Json

mutual

/-- Decidable equality on JSON values (Python `==` on loaded JSON data). -/
def Json.decEq : (a b : Json) → Decidable (a = b)
  | .null, .null => .isTrue rfl
  | .bool a, .bool b =>
      if h : a = b then .isTrue (by rw [h]) else .isFalse (by simp [h])
  | .num a, .num b =>
      if h : a = b then .isTrue (by rw [h]) else .isFalse (by simp [h])
  | .str a, .str b =>
      if h : a = b then .isTrue (by rw [h]) else .isFalse (by simp [h])
  | .arr xs, .arr ys =>
      match Json.decEqList xs ys with
      | .isTrue h => .isTrue (by rw [h])
      | .isFalse h => .isFalse (by simp [h])
  | .obj xs, .obj ys =>
      match Json.decEqObj xs ys with
      | .isTrue h => .isTrue (by rw [h])
      | .isFalse h => .isFalse (by simp [h])
  | .null, .bool _ => .isFalse (by simp)
  | .null, .num _ => .isFalse (by simp)
  | .null, .str _ => .isFalse (by simp)
  | .null, .arr _ => .isFalse (by simp)
  | .null, .obj _ => .isFalse (by simp)
  | .bool _, .null => .isFalse (by simp)
  | .bool _, .num _ => .isFalse (by simp)
  | .bool _, .str _ => .isFalse (by simp)
  | .bool _, .arr _ => .isFalse (by simp)
  | .bool _, .obj _ => .isFalse (by simp)
  | .num _, .null => .isFalse (by simp)
  | .num _, .bool _ => .isFalse (by simp)
  | .num _, .str _ => .isFalse (by simp)
  | .num _, .arr _ => .isFalse (by simp)
  | .num _, .obj _ => .isFalse (by simp)
  | .str _, .null => .isFalse (by simp)
  | .str _, .bool _ => .isFalse (by simp)
  | .str _, .num _ => .isFalse (by simp)
  | .str _, .arr _ => .isFalse (by simp)
  | .str _, .obj _ => .isFalse (by simp)
  | .arr _, .null => .isFalse (by simp)
  | .arr _, .bool _ => .isFalse (by simp)
  | .arr _, .num _ => .isFalse (by simp)
  | .arr _, .str _ => .isFalse (by simp)
  | .arr _, .obj _ => .isFalse (by simp)
  | .obj _, .null => .isFalse (by simp)
  | .obj _, .bool _ => .isFalse (by simp)
  | .obj _, .num _ => .isFalse (by simp)
  | .obj _, .str _ => .isFalse (by simp)
  | .obj _, .arr _ => .isFalse (by simp)

/-- Decidable equality on JSON arrays. -/
def Json.decEqList : (xs ys : List Json) → Decidable (xs = ys)
  | [], [] => .isTrue rfl
  | [], _ :: _ => .isFalse (by simp)
  | _ :: _, [] => .isFalse (by simp)
  | x :: xs, y :: ys =>
      match Json.decEq x y with
      | .isFalse h => .isFalse (by simp [h])
      | .isTrue h =>
        match Json.decEqList xs ys with
        | .isTrue h2 => .isTrue (by rw [h, h2])
        | .isFalse h2 => .isFalse (by simp [h2])

/-- Decidable equality on JSON object binding lists. -/
def Json.decEqObj : (xs ys : List (String × Json)) → Decidable (xs = ys)
  | [], [] => .isTrue rfl
  | [], _ :: _ => .isFalse (by simp)
  | _ :: _, [] => .isFalse (by simp)
  | (k1, v1) :: xs, (k2, v2) :: ys =>
      if hk : k1 = k2 then
        match Json.decEq v1 v2 with
        | .isFalse h => .isFalse (by simp [h])
        | .isTrue h =>
          match Json.decEqObj xs ys with
          | .isTrue h2 => .isTrue (by rw [hk, h, h2])
          | .isFalse h2 => .isFalse (by simp [h2])
      else .isFalse (by simp [hk])

end

instance : DecidableEq Json := Json.decEq

instance {ε α : Type} [DecidableEq ε] [DecidableEq α] : DecidableEq (Except ε α) :=
  fun a b =>
    match a, b with
    | .ok x, .ok y => if h : x = y then .isTrue (by rw [h]) else .isFalse (by simp [h])
    | .error x, .error y => if h : x = y then .isTrue (by rw [h]) else .isFalse (by simp [h])
    | .ok _, .error _ => .isFalse (by simp)
    | .error _, .ok _ => .isFalse (by simp)

namespace Json

/-- `d.get(k)` on a Python dict: the value of the first binding of `k`,
if any. (Dicts loaded from JSON have unique keys, so first-match lookup
agrees with Python.) -/
def lookup (k : String) : List (String × Json) → Option Json
  | [] => none
  | (k', v) :: rest => if k' = k then some v else lookup k rest

/-- `d.get(k, default)` on a Python dict. -/
def getD (kvs : List (String × Json)) (k : String) (default : Json) : Json :=
  (lookup k kvs).getD default

/-- Hashable JSON values: Python lists and dicts are unhashable, so using
one as a `Counter` key raises `TypeError`. -/
def isHashable : Json → Bool
  | .arr _ => false
  | .obj _ => false
  | _ => true

/-- Python iteration `for comp in components`: arrays yield their elements,
strings their one-character substrings, dicts their keys; any other value
raises `TypeError`.  For all iterable values, Python's `len` agrees with
the length of this list. -/
def iterate : Json → Except String (List Json)
  | .arr xs => .ok xs
  | .str s => .ok (s.data.map fun c => .str (String.singleton c))
  | .obj kvs => .ok (kvs.map fun kv => .str kv.1)
  | _ => .error "TypeError: object is not iterable"

end Json

/-- A `collections.Counter` with JSON keys: an association list with
pairwise-distinct keys, in insertion order. -/
abbrev Counter := List (Json × Nat)

namespace Counter

/-- `c[k] += 1`: bump the count of `k`, appending a fresh binding `(k, 1)`
when `k` is not yet a key. -/
def incr (k : Json) : Counter → Counter
  | [] => [(k, 1)]
  | (k', n) :: rest => if k' = k then (k', n + 1) :: rest else (k', n) :: incr k rest

/-- `c.update(other)`: add `other`'s counts into `c`, key by key. -/
def addEntry (c : Counter) (k : Json) (n : Nat) : Counter :=
  match c with
  | [] => [(k, n)]
  | (k', m) :: rest => if k' = k then (k', m + n) :: rest else (k', m) :: addEntry rest k n

/-- `c.update(other)` over all of `other`'s bindings. -/
def update (c other : Counter) : Counter :=
  other.foldl (fun acc kv => acc.addEntry kv.1 kv.2) c

/-- `c.get(k)`: the count stored for `k`, if any. -/
def get? (k : Json) : Counter → Option Nat
  | [] => none
  | (k', n) :: rest => if k' = k then some n else get? k rest

/-- `sum(c.values())`: the total of all counts. -/
def total (c : Counter) : Nat := (c.map Prod.snd).sum

end Counter

/-- Lower-case an ASCII letter, as Python's `str.lower` does on the
tool-name strings in play. -/
def lowerChar (c : Char) : Char :=
  if c.toNat < 65 ∨ 90 < c.toNat then c else Char.ofNat (c.toNat + 32)

/-- `tool_name.lower()`. -/
def pyLower (s : String) : String := String.mk (s.data.map lowerChar)

/-- `tool_name.lower() in {"cdxgen", "deepseek"}` (cbom_analyzer.py:133,150). -/
def isCdxTool (tool_name : String) : Bool :=
  pyLower tool_name == "cdxgen" || pyLower tool_name == "deepseek"

/-- The `try` body of the cbomkit extraction branch (cbom_analyzer.py:137-141):
when the payload is a non-empty list, take its first element (`cbom_data[0]`
would raise `IndexError` on an empty list, hence the `and cbom_data` guard),
read `bom` from it when it is a dict, and when `bom` is truthy and a dict
read its `components` key. All other shapes leave `components` as `[]`. -/
def cbomkitTryExtract (cbom_data : Json) : Except String Json :=
  match cbom_data with
  | .arr xs =>
      if xs.isEmpty then .ok (.arr [])
      else
        match xs with
        | [] => .error "IndexError: list index out of range"
        | x :: _ =>
          let bom : Option Json :=
            match x with
            | .obj kvs => Json.lookup "bom" kvs
            | _ => none
          match bom with
          | some (.obj bkvs) =>
              if bkvs.isEmpty then .ok (.arr [])
              else .ok (Json.getD bkvs "components" (.arr []))
          | _ => .ok (.arr [])
  | _ => .ok (.arr [])

/-- Component extraction of `analyze_single_cbom` (cbom_analyzer.py:129-145):
for cdxgen/deepseek read the top-level `components` key of a dict payload;
for any other tool run the cbomkit `try` body, falling back on exception to
the top-level `components` key of a dict payload. -/
def extract_components (cbom_data : Json) (tool_name : String) : Json :=
  if isCdxTool tool_name then
    match cbom_data with
    | .obj kvs => Json.getD kvs "components" (.arr [])
    | _ => .arr []
  else
    match cbomkitTryExtract cbom_data with
    | .ok v => v
    | .error _ =>
      match cbom_data with
      | .obj kvs => Json.getD kvs "components" (.arr [])
      | _ => .arr []

/-- The per-component type of `analyze_single_cbom` (cbom_analyzer.py:148-155):
for a tool other than cdxgen/deepseek and a dict component, read
`comp.get('cryptoProperties', {}).get('assetType', comp.get('type', 'unknown'))`
(`AttributeError` when the stored `cryptoProperties` value is not a dict);
otherwise `comp.get('type', 'unknown')` for a dict and `'unknown'` for
anything else. -/
def comp_type (tool_name : String) (comp : Json) : Except String Json :=
  match comp with
  | .obj kvs =>
    if isCdxTool tool_name then .ok (Json.getD kvs "type" (.str "unknown"))
    else
      match Json.getD kvs "cryptoProperties" (.obj []) with
      | .obj cpkvs => .ok (Json.getD cpkvs "assetType" (Json.getD kvs "type" (.str "unknown")))
      | _ => .error "AttributeError: object has no attribute get"
  | _ => .ok (.str "unknown")

/-- The tally loop of `analyze_single_cbom` (cbom_analyzer.py:147-155):
`component_types[comp_type] += 1` per component; an unhashable key (a list
or dict) raises `TypeError`. -/
def tally_types (tool_name : String) : List Json → Counter → Except String Counter
  | [], acc => .ok acc
  | comp :: rest, acc => do
      let k ← comp_type tool_name comp
      if k.isHashable then tally_types tool_name rest (acc.incr k)
      else .error "TypeError: unhashable type"

/-- The analysis record returned by `analyze_single_cbom`
(cbom_analyzer.py:159-163), plus the `error` key that the error records of
`analyze_all_cboms` carry (cbom_analyzer.py:108-113). -/
structure Analysis where
  total_components : Nat
  is_empty : Bool
  component_types : Counter
  error : Option String := none
deriving DecidableEq

/-- `analyze_single_cbom` (cbom_analyzer.py:115-163): extract the component
list, tally component types, and return totals; a Python exception anywhere
in the body is an `.error`. -/
def analyze_single_cbom (cbom_data : Json) (tool_name : String) : Except String Analysis := do
  let components ← Json.iterate (extract_components cbom_data tool_name)
  let component_types ← tally_types tool_name components []
  .ok { total_components := components.length,
        is_empty := components.length == 0,
        component_types := component_types }

/-- The error record stored by `analyze_all_cboms` when reading, parsing or
analysing a file raises (cbom_analyzer.py:108-113). -/
def errorRecord (e : String) : Analysis :=
  { total_components := 0, is_empty := true, component_types := [], error := some e }

/-- The per-tool file loop of `analyze_all_cboms` (cbom_analyzer.py:96-113):
each file is given by its repository name and the result of reading and
JSON-parsing it (`.error` when either raises); a failure of parsing or of
`analyze_single_cbom` stores an error record, and the loop always continues
with the remaining files. -/
def analyze_all_cboms (tool : String) (files : List (String × Except String Json)) :
    List (String × Analysis) :=
  files.map fun file =>
    (file.1,
      match file.2 >>= (analyze_single_cbom · tool) with
      | .ok a => a
      | .error e => errorRecord e)

/-! ### The report join (`generate_comparison_report`, cbom_analyzer.py:228-245) -/

/-- First-match association lookup, the value stored under a key of a
Python dict (keys of a dict are unique). -/
def lookupKey {α : Type} (k : String) : List (String × α) → Option α
  | [] => none
  | (k', v) :: rest => if k' = k then some v else lookupKey k rest

/-- `j.get(k, default)` where `j` is an arbitrary loaded JSON value:
`AttributeError` when `j` is not a dict. -/
def pyGetD (j : Json) (k : String) (default : Json) : Except String Json :=
  match j with
  | .obj kvs => .ok (Json.getD kvs k default)
  | _ => .error "AttributeError: object has no attribute get"

/-- `j.get(k)` (default `None`) where `j` is an arbitrary loaded JSON value. -/
def pyGet (j : Json) (k : String) : Except String (Option Json) :=
  match j with
  | .obj kvs => .ok (Json.lookup k kvs)
  | _ => .error "AttributeError: object has no attribute get"

/-- `execution_times.get(repo_name, {}).get(tool, {}).get('duration')`
(cbom_analyzer.py:233). -/
def lookup_duration (execution_times : Json) (repo tool : String) :
    Except String (Option Json) := do
  let repo_data ← pyGetD execution_times repo (.obj [])
  let tool_data ← pyGetD repo_data tool (.obj [])
  pyGet tool_data "duration"

/-- One flat record of the `results` list built by `generate_comparison_report`
(cbom_analyzer.py:234-243). -/
structure ResultRow where
  Repository : String
  Tool : String
  Total_Components : Nat
  Is_Empty : Bool
  Execution_Time : Option Json
  Component_Types : Counter
  Repository_Size : Option ℚ
  Java_Size : Option ℚ
deriving DecidableEq

/-- The body of the join loop of `generate_comparison_report`
(cbom_analyzer.py:233-243): one flat record for one (repository, tool) pair.
The sizes default to `(None, None)` when the repository has no size entry
(the source computes this lookup once per repository before its inner loop;
computing it per pair is the same value). -/
def build_row (execution_times : Json) (repo_sizes : List (String × (Option ℚ × Option ℚ)))
    (repo : String) (td : String × Analysis) : Except String ResultRow := do
  let exec_time ← lookup_duration execution_times repo td.1
  pure { Repository := repo
         Tool := td.1
         Total_Components := td.2.total_components
         Is_Empty := td.2.is_empty
         Execution_Time := exec_time
         Component_Types := td.2.component_types
         Repository_Size := ((lookupKey repo repo_sizes).getD (none, none)).1
         Java_Size := ((lookupKey repo repo_sizes).getD (none, none)).2 : ResultRow }

/-- The join loop of `generate_comparison_report` (cbom_analyzer.py:228-245):
one record per (repository, tool) pair of `comparison_data`, joined with the
execution-time metrics and the repository sizes. -/
def build_results (comparison_data : List (String × List (String × Analysis)))
    (execution_times : Json) (repo_sizes : List (String × (Option ℚ × Option ℚ))) :
    Except String (List ResultRow) := do
  let rowss ← comparison_data.mapM fun rd =>
    rd.2.mapM (build_row execution_times repo_sizes rd.1)
  pure rowss.flatten

/-- The duration actually stored in a row when the join succeeds: the value
of `lookup_duration` when it returns, `None` being unreachable on a
successful join. -/
def durationOf (execution_times : Json) (repo tool : String) : Option Json :=
  match lookup_duration execution_times repo tool with
  | .ok d => d
  | .error _ => none

/-- The single flat record built for one (repository, tool) pair by the join
loop (cbom_analyzer.py:234-243). -/
def joined_row (execution_times : Json) (repo_sizes : List (String × (Option ℚ × Option ℚ)))
    (repo tool : String) (data : Analysis) : ResultRow :=
  { Repository := repo
    Tool := tool
    Total_Components := data.total_components
    Is_Empty := data.is_empty
    Execution_Time := durationOf execution_times repo tool
    Component_Types := data.component_types
    Repository_Size := ((lookupKey repo repo_sizes).getD (none, none)).1
    Java_Size := ((lookupKey repo repo_sizes).getD (none, none)).2 }

/-! ### Statistics (`_calculate_statistics`, cbom_analyzer.py:266-299) -/

/-- The numeric value of a JSON cell; pandas treats `None` and non-numbers
as missing when averaging. -/
def Json.numVal : Json → Option ℚ
  | .num q => some q
  | _ => none

/-- The usable execution-time values of a tool's rows: pandas
`mean(skipna=True)` / `std(skipna=True)` ignore missing values. -/
def execTimes (rows : List ResultRow) : List ℚ :=
  rows.filterMap fun r => r.Execution_Time.bind Json.numVal

/-- pandas `Series.mean`: `NaN` (here `none`) when there are no values. -/
def pandasMean (l : List ℚ) : Option ℚ :=
  if l.isEmpty then none else some (l.sum / l.length)

/-- The square of pandas `Series.std` (sample standard deviation, `ddof=1`):
`NaN` (here `none`) when there are fewer than two values.  The standard
deviation reported by the source is the square root of this value, which is
irrational in general; we verify the variance it determines. -/
def pandasVar (l : List ℚ) : Option ℚ :=
  if l.length < 2 then none
  else
    some (((l.map fun x => (x - l.sum / l.length) ^ 2).sum) / ((l.length : ℚ) - 1))

/-- The per-tool summary of `_calculate_statistics` (cbom_analyzer.py:283-298).
`execution_time_var` stands for the square of the `execution_time_std` field
of the source. -/
structure ToolStats where
  total_repos : Nat
  empty_cboms : Nat
  non_empty_cboms : Nat
  empty_percentage : ℚ
  avg_components : ℚ
  avg_components_non_empty : ℚ
  total_components : Nat
  avg_execution_time : Option ℚ
  execution_time_var : Option ℚ
  component_types : Counter
deriving DecidableEq

/-- `df[df['Tool'] == tool]` (cbom_analyzer.py:278). -/
def toolRows (rows : List ResultRow) (tool : String) : List ResultRow :=
  rows.filter fun r => r.Tool == tool

/-- `tool_df[~tool_df['Is_Empty']]` (cbom_analyzer.py:282). -/
def nonEmptyRows (rows : List ResultRow) : List ResultRow :=
  rows.filter fun r => !r.Is_Empty

/-- `tool_df[tool_df['Is_Empty']]`, whose length is `tool_df['Is_Empty'].sum()`
(cbom_analyzer.py:285). -/
def emptyRows (rows : List ResultRow) : List ResultRow :=
  rows.filter fun r => r.Is_Empty

/-- The body of the per-tool loop of `_calculate_statistics`
(cbom_analyzer.py:277-298): `none` when the tool has no rows (the `continue`
branch), otherwise the summary record. -/
def calc_tool_stats (rows : List ResultRow) (tool : String) : Option ToolStats :=
  let tool_df := toolRows rows tool
  if tool_df.isEmpty then none
  else
    let non_empty_df := nonEmptyRows tool_df
    let times := execTimes tool_df
    some {
      total_repos := tool_df.length
      empty_cboms := (emptyRows tool_df).length
      non_empty_cboms := non_empty_df.length
      empty_percentage :=
        (((emptyRows tool_df).length : ℚ) / tool_df.length) * 100
      avg_components :=
        ((((tool_df.map fun r => r.Total_Components).sum : ℕ) : ℚ)) / tool_df.length
      avg_components_non_empty :=
        if non_empty_df.isEmpty then 0
        else ((((non_empty_df.map fun r => r.Total_Components).sum : ℕ) : ℚ)) /
          non_empty_df.length
      total_components := (tool_df.map fun r => r.Total_Components).sum
      avg_execution_time := pandasMean times
      execution_time_var := pandasVar times
      component_types := tool_df.foldl (fun acc r => acc.update r.Component_Types) [] }

/-- `TOOL_NAMES` (cbom_analyzer.py:28). -/
def TOOL_NAMES : List String := ["cbomkit", "cdxgen", "deepseek"]

/-- `_calculate_statistics` (cbom_analyzer.py:266-299): one summary per tool
that has at least one row. -/
def calculate_statistics (rows : List ResultRow) : List (String × ToolStats) :=
  TOOL_NAMES.filterMap fun tool => (calc_tool_stats rows tool).map fun s => (tool, s)

/-! ### CSV round trip (`export_to_csv` cbom_analyzer.py:533-555,
`load_and_visualize_csv` cbom_analyzer.py:598-631)

`export_to_csv` flattens the `Component_Types` column: the union of the type
names over all rows becomes a set of columns prefixed with `Type_`, a row's
cell holding its count for that name (0 after `fillna` when absent).
`load_and_visualize_csv` walks all columns of the loaded table, takes those
whose name starts with `Type_`, strips every occurrence of `Type_` from the
column name (Python `str.replace` replaces all occurrences), and keeps the
strictly positive cells.  The non-type columns (`Repository`, `Tool`,
`Total_Components`, `Is_Empty`, `Execution_Time`, `Repository_Size`,
`Java_Size`) are copied through unchanged, and none of their names starts
with `Type_`, so we model the transformation on the type columns, one
association list of string-named integer counts per row. -/

/-- A row's component-type counts as exported: type name to integer count
(`astype(int)`). -/
abbrev TypeCounter := List (String × Int)

/-- Does the character list start with `Type_`?  (`str.startswith('Type_')`.) -/
def hasTU (l : List Char) : Bool := l.take 5 == ['T', 'y', 'p', 'e', '_']

/-- Does the character list contain `Type_` as a substring? -/
def containsTU : List Char → Bool
  | [] => false
  | c :: rest => hasTU (c :: rest) || containsTU rest

/-- `str.replace('Type_', '')`: remove every (left-to-right, non-overlapping)
occurrence of `Type_`. -/
def stripTU : List Char → List Char
  | [] => []
  | c :: rest =>
    if hasTU (c :: rest) then stripTU ((c :: rest).drop 5)
    else c :: stripTU rest
termination_by l => l.length
decreasing_by
  · simp [List.length_drop]; omega
  · simp

/-- `col.startswith('Type_')` on strings. -/
def sStartsTU (s : String) : Bool := hasTU s.data

/-- `col.replace('Type_', '')` on strings. -/
def sStripTU (s : String) : String := String.mk (stripTU s.data)

/-- Whether a string contains the substring `Type_`. -/
def sContainsTU (s : String) : Bool := containsTU s.data

/-- The union of type names over the table's rows, each name once: the
columns which `df['Component_Types'].apply(pd.Series)` creates. -/
def typeCols (table : List TypeCounter) : List String :=
  ((table.map fun c => c.map Prod.fst).flatten).dedup

/-- One row of the flattened export: for every type column, the `Type_`-
prefixed column name paired with the row's count for it, 0 when the row's
counter lacks the name (`fillna(0)`). -/
def export_type_cells (cols : List String) (c : TypeCounter) : List (String × Int) :=
  cols.map fun col => ("Type_" ++ col, (lookupKey col c).getD 0)

/-- The type-column part of `export_to_csv` (cbom_analyzer.py:548-552). -/
def export_to_csv_types (table : List TypeCounter) : List (List (String × Int)) :=
  table.map (export_type_cells (typeCols table))

/-- The reconstruction loop of `load_and_visualize_csv`
(cbom_analyzer.py:619-625): keep the strictly positive `Type_` cells under
the stripped column name. -/
def load_row_types (cells : List (String × Int)) : TypeCounter :=
  cells.filterMap fun cell =>
    if sStartsTU cell.1 && decide (0 < cell.2) then some (sStripTU cell.1, cell.2)
    else none

/-- Export then reload the type columns of a whole table. -/
def roundTripTypes (table : List TypeCounter) : List TypeCounter :=
  (export_to_csv_types table).map load_row_types

/-! ## Helper lemmas -/

theorem Counter.total_nil : Counter.total [] = 0 := rfl

theorem Counter.total_cons (k : Json) (n : Nat) (rest : Counter) :
    Counter.total ((k, n) :: rest) = n + rest.total := by
  simp [Counter.total]

theorem Counter.total_incr (c : Counter) (k : Json) :
    (c.incr k).total = c.total + 1 := by
  induction c with
  | nil => simp [Counter.incr, Counter.total]
  | cons kv rest ih =>
    obtain ⟨k0, n⟩ := kv
    by_cases h : k0 = k
    · simp [Counter.incr, h, Counter.total_cons]
      omega
    · simp [Counter.incr, h, Counter.total_cons, ih]
      omega

theorem tally_types_ok_total (tool : String) (comps : List Json) :
    ∀ (acc c : Counter), tally_types tool comps acc = .ok c →
      c.total = acc.total + comps.length := by
  induction comps with
  | nil =>
    intro acc c h
    simp [tally_types] at h
    simp [h.symm]
  | cons comp rest ih =>
    intro acc c h
    simp only [tally_types] at h
    cases hk : comp_type tool comp with
    | error e => rw [hk] at h; simp [Bind.bind, Except.bind] at h
    | ok k =>
      rw [hk] at h
      simp only [Bind.bind, Except.bind] at h
      by_cases hh : k.isHashable
      · rw [if_pos hh] at h
        have := ih (acc.incr k) c h
        rw [Counter.total_incr] at this
        rw [this, List.length_cons]
        omega
      · rw [if_neg hh] at h
        exact absurd h (by simp)

theorem analyze_single_cbom_ok_inv {cbom_data : Json} {tool_name : String} {a : Analysis}
    (h : analyze_single_cbom cbom_data tool_name = .ok a) :
    ∃ comps types,
      Json.iterate (extract_components cbom_data tool_name) = .ok comps ∧
      tally_types tool_name comps [] = .ok types ∧
      a = { total_components := comps.length, is_empty := comps.length == 0,
            component_types := types } := by
  unfold analyze_single_cbom at h
  cases hi : Json.iterate (extract_components cbom_data tool_name) with
  | error e => rw [hi] at h; simp [Bind.bind, Except.bind] at h
  | ok comps =>
    rw [hi] at h
    simp only [Bind.bind, Except.bind] at h
    cases ht : tally_types tool_name comps [] with
    | error e => rw [ht] at h; simp at h
    | ok types =>
      rw [ht] at h
      simp only [Except.ok.injEq] at h
      exact ⟨comps, types, rfl, ht, h.symm⟩

theorem Counter.total_addEntry (c : Counter) (k : Json) (n : Nat) :
    (c.addEntry k n).total = c.total + n := by
  induction c with
  | nil => simp [Counter.addEntry, Counter.total]
  | cons kv rest ih =>
    obtain ⟨k0, m⟩ := kv
    by_cases h : k0 = k
    · simp [Counter.addEntry, h, Counter.total_cons]
      omega
    · simp [Counter.addEntry, h, Counter.total_cons, ih]
      omega

theorem Counter.total_update (c d : Counter) :
    (c.update d).total = c.total + d.total := by
  unfold Counter.update
  induction d generalizing c with
  | nil => simp [Counter.total]
  | cons kv rest ih =>
    simp only [List.foldl_cons]
    rw [ih, Counter.total_addEntry, Counter.total_cons]
    omega

theorem total_foldl_update (rows : List ResultRow) :
    ∀ acc : Counter,
      (∀ r ∈ rows, Counter.total r.Component_Types = r.Total_Components) →
      Counter.total (rows.foldl (fun acc r => acc.update r.Component_Types) acc) =
        acc.total + (rows.map fun r => r.Total_Components).sum := by
  induction rows with
  | nil => intro acc _; simp
  | cons r rest ih =>
    intro acc h
    simp only [List.foldl_cons, List.map_cons, List.sum_cons]
    rw [ih _ fun r2 h2 => h r2 (List.mem_cons_of_mem r h2),
      Counter.total_update, h r (List.mem_cons_self r rest)]
    omega

theorem build_row_ok_inv {et : Json} {rs : List (String × (Option ℚ × Option ℚ))}
    {repo : String} {td : String × Analysis} {r : ResultRow}
    (h : build_row et rs repo td = .ok r) :
    r = joined_row et rs repo td.1 td.2 := by
  unfold build_row at h
  cases hd : lookup_duration et repo td.1 with
  | error e => rw [hd] at h; simp [Bind.bind, Except.bind] at h
  | ok d =>
    rw [hd] at h
    simp only [Bind.bind, Except.bind, pure, Except.pure, Except.ok.injEq] at h
    rw [← h]
    unfold joined_row durationOf
    rw [hd]

theorem mapM_build_row_ok {et : Json} {rs : List (String × (Option ℚ × Option ℚ))}
    {repo : String} (tds : List (String × Analysis)) :
    ∀ out, tds.mapM (build_row et rs repo) = .ok out →
      out = tds.map fun td => joined_row et rs repo td.1 td.2 := by
  induction tds with
  | nil =>
    intro out h
    simp only [List.mapM_nil, pure, Except.pure, Except.ok.injEq] at h
    simp [← h]
  | cons td rest ih =>
    intro out h
    rw [List.mapM_cons] at h
    cases hr : build_row et rs repo td with
    | error e => rw [hr] at h; simp [Bind.bind, Except.bind] at h
    | ok r =>
      rw [hr] at h
      simp only [Bind.bind, Except.bind] at h
      cases hm : rest.mapM (build_row et rs repo) with
      | error e => rw [hm] at h; simp at h
      | ok out2 =>
        rw [hm] at h
        simp only [pure, Except.pure, Except.ok.injEq] at h
        rw [← h, List.map_cons, build_row_ok_inv hr, ih out2 hm]

theorem mapM_blocks_ok {et : Json} {rs : List (String × (Option ℚ × Option ℚ))}
    (cd : List (String × List (String × Analysis))) :
    ∀ out, cd.mapM (fun rd => rd.2.mapM (build_row et rs rd.1)) = .ok out →
      out = cd.map fun rd => rd.2.map fun td => joined_row et rs rd.1 td.1 td.2 := by
  induction cd with
  | nil =>
    intro out h
    simp only [List.mapM_nil, pure, Except.pure, Except.ok.injEq] at h
    simp [← h]
  | cons rd rest ih =>
    intro out h
    rw [List.mapM_cons] at h
    cases hr : rd.2.mapM (build_row et rs rd.1) with
    | error e => rw [hr] at h; simp [Bind.bind, Except.bind] at h
    | ok block =>
      rw [hr] at h
      simp only [Bind.bind, Except.bind] at h
      cases hm : rest.mapM (fun rd => rd.2.mapM (build_row et rs rd.1)) with
      | error e => rw [hm] at h; simp at h
      | ok out2 =>
        rw [hm] at h
        simp only [pure, Except.pure, Except.ok.injEq] at h
        rw [← h, List.map_cons, mapM_build_row_ok rd.2 block hr, ih out2 hm]

theorem build_results_ok_inv {cd : List (String × List (String × Analysis))}
    {et : Json} {rs : List (String × (Option ℚ × Option ℚ))} {rows : List ResultRow}
    (h : build_results cd et rs = .ok rows) :
    rows = (cd.map fun rd => rd.2.map fun td => joined_row et rs rd.1 td.1 td.2).flatten := by
  unfold build_results at h
  cases hm : cd.mapM (fun rd => rd.2.mapM (build_row et rs rd.1)) with
  | error e => rw [hm] at h; simp [Bind.bind, Except.bind] at h
  | ok out =>
    rw [hm] at h
    simp only [Bind.bind, Except.bind, pure, Except.pure, Except.ok.injEq] at h
    rw [← h, mapM_blocks_ok cd out hm]

/-! ## Claims -/

/-- C1: for every CBOM payload and tool name, the analysis record produced by
`analyze_single_cbom` has `is_empty = true` iff `total_components = 0`; every
record stored by `analyze_all_cboms` — the error records included — also
satisfies this equivalence. -/
theorem C1_is_empty_iff_zero :
    (∀ (cbom_data : Json) (tool_name : String) (a : Analysis),
        analyze_single_cbom cbom_data tool_name = .ok a →
        (a.is_empty = true ↔ a.total_components = 0)) ∧
    (∀ (tool : String) (files : List (String × Except String Json))
        (e : String × Analysis), e ∈ analyze_all_cboms tool files →
        (e.2.is_empty = true ↔ e.2.total_components = 0)) := by
  constructor
  · intro j t a h
    obtain ⟨comps, types, hi, ht, rfl⟩ := analyze_single_cbom_ok_inv h
    simp
  · intro tool files e he
    simp only [analyze_all_cboms, List.mem_map] at he
    obtain ⟨file, hf, rfl⟩ := he
    cases hm : file.2 >>= (analyze_single_cbom · tool) with
    | ok a =>
      simp only [hm]
      cases hp : file.2 with
      | error e2 => rw [hp] at hm; simp [Bind.bind, Except.bind] at hm
      | ok j =>
        rw [hp] at hm
        simp only [Bind.bind, Except.bind] at hm
        obtain ⟨comps, types, hi, ht, rfl⟩ := analyze_single_cbom_ok_inv hm
        simp
    | error e2 => simp [hm, errorRecord]

/-- C1 witness: the equivalence at a concrete error record stored by
`analyze_all_cboms` for an unparsable file. -/
theorem C1_is_empty_iff_zero_witness :
    (errorRecord "boom").is_empty = true ↔ (errorRecord "boom").total_components = 0 :=
  C1_is_empty_iff_zero.2 "cdxgen" [("r", .error "boom")] ("r", errorRecord "boom") (by decide)

/-- C10: for a tool other than cdxgen/deepseek (the cbomkit branch), a dict
payload always yields the empty analysis (`total_components = 0`, `is_empty`
true, empty counter), and the `try` body of the cbomkit extraction can never
raise — so the `except` fallback reading a top-level `components` key is
unreachable. -/
theorem C10_cbomkit_dict_payload_empty :
    (∀ (kvs : List (String × Json)) (tool_name : String),
        isCdxTool tool_name = false →
        analyze_single_cbom (.obj kvs) tool_name =
          .ok { total_components := 0, is_empty := true, component_types := [] }) ∧
    (∀ cbom_data : Json, ∃ v, cbomkitTryExtract cbom_data = .ok v) := by
  constructor
  · intro kvs t ht
    simp [analyze_single_cbom, extract_components, ht, cbomkitTryExtract,
      Json.iterate, tally_types, Bind.bind, Except.bind]
  · intro j
    cases j with
    | arr xs =>
      cases xs with
      | nil => exact ⟨.arr [], by simp [cbomkitTryExtract]⟩
      | cons x rest =>
        cases x with
        | obj kvs =>
          cases hb : Json.lookup "bom" kvs with
          | none => exact ⟨.arr [], by simp [cbomkitTryExtract, hb]⟩
          | some v =>
            cases v with
            | obj bkvs =>
              by_cases hbe : bkvs.isEmpty
              · exact ⟨.arr [], by simp [cbomkitTryExtract, hb, hbe]⟩
              · exact ⟨Json.getD bkvs "components" (.arr []),
                  by simp [cbomkitTryExtract, hb, hbe]⟩
            | null => exact ⟨.arr [], by simp [cbomkitTryExtract, hb]⟩
            | bool b => exact ⟨.arr [], by simp [cbomkitTryExtract, hb]⟩
            | num q => exact ⟨.arr [], by simp [cbomkitTryExtract, hb]⟩
            | str s => exact ⟨.arr [], by simp [cbomkitTryExtract, hb]⟩
            | arr ys => exact ⟨.arr [], by simp [cbomkitTryExtract, hb]⟩
        | null => exact ⟨.arr [], by simp [cbomkitTryExtract]⟩
        | bool b => exact ⟨.arr [], by simp [cbomkitTryExtract]⟩
        | num q => exact ⟨.arr [], by simp [cbomkitTryExtract]⟩
        | str s => exact ⟨.arr [], by simp [cbomkitTryExtract]⟩
        | arr ys => exact ⟨.arr [], by simp [cbomkitTryExtract]⟩
    | null => exact ⟨.arr [], rfl⟩
    | bool b => exact ⟨.arr [], rfl⟩
    | num q => exact ⟨.arr [], rfl⟩
    | str s => exact ⟨.arr [], rfl⟩
    | obj kvs => exact ⟨.arr [], rfl⟩

/-- C2 counterexample: for tool cdxgen, a component that carries
`cryptoProperties.assetType = "algorithm"` next to `type = "library"` is
tallied under `"library"` — the crypto-specific asset type is NOT preferred
for cdxgen/deepseek, contradicting the claim's "for every tool name". -/
theorem C2_assetType_counterexample :
    analyze_single_cbom
        (.obj [("components", .arr [.obj
          [("cryptoProperties", .obj [("assetType", .str "algorithm")]),
           ("type", .str "library")]])]) "cdxgen" =
      .ok { total_components := 1, is_empty := false,
            component_types := [(.str "library", 1)] } ∧
    Counter.get? (.str "algorithm") [(.str "library", 1)] = none := by
  constructor
  · rfl
  · rfl

/-- C2 (amended): only for a tool other than cdxgen/deepseek (i.e. the
cbomkit branch) is the crypto-specific asset type preferred — for such a
tool, a dict component whose `cryptoProperties` is a dict containing
`assetType` gets exactly that value as its type, and tallying it counts that
value once. -/
theorem C2_assetType_preferred (tool_name : String) (kvs cpkvs : List (String × Json))
    (v : Json) (hT : isCdxTool tool_name = false)
    (hcp : Json.lookup "cryptoProperties" kvs = some (.obj cpkvs))
    (hat : Json.lookup "assetType" cpkvs = some v) :
    comp_type tool_name (.obj kvs) = .ok v ∧
    (v.isHashable = true → tally_types tool_name [.obj kvs] [] = .ok [(v, 1)]) := by
  have hct : comp_type tool_name (.obj kvs) = .ok v := by
    simp [comp_type, hT, Json.getD, hcp, hat]
  refine ⟨hct, fun hh => ?_⟩
  simp [tally_types, hct, Bind.bind, Except.bind, hh, Counter.incr]

/-- C2 witness: the amended preference at a concrete cbomkit component. -/
theorem C2_assetType_preferred_witness :
    comp_type "cbomkit" (.obj
        [("cryptoProperties", .obj [("assetType", .str "algorithm")]),
         ("type", .str "library")]) = .ok (.str "algorithm") ∧
    ((Json.str "algorithm").isHashable = true →
      tally_types "cbomkit" [.obj
        [("cryptoProperties", .obj [("assetType", .str "algorithm")]),
         ("type", .str "library")]] [] = .ok [(.str "algorithm", 1)]) :=
  C2_assetType_preferred "cbomkit"
    [("cryptoProperties", .obj [("assetType", .str "algorithm")]), ("type", .str "library")]
    [("assetType", .str "algorithm")] (.str "algorithm")
    (by decide) (by decide) (by decide)

/-- C4: a file whose parsing or analysis raises is stored as a structured
error record — zero components, flagged empty, empty counter, the error
message — at its position, and the batch always processes every file
(`analyze_all_cboms` yields one record per input, whatever the inputs). -/
theorem C4_error_record (tool : String) (files : List (String × Except String Json)) :
    (analyze_all_cboms tool files).length = files.length ∧
    ∀ (i : ℕ) (hi : i < (analyze_all_cboms tool files).length)
      (hi2 : i < files.length) (e : String),
      (files.get ⟨i, hi2⟩).2 >>= (analyze_single_cbom · tool) = .error e →
      (analyze_all_cboms tool files).get ⟨i, hi⟩ =
        ((files.get ⟨i, hi2⟩).1,
          { total_components := 0, is_empty := true, component_types := [],
            error := some e }) := by
  constructor
  · simp [analyze_all_cboms]
  · intro i hi hi2 e he
    simp only [analyze_all_cboms, List.get_eq_getElem, List.getElem_map]
    rw [List.get_eq_getElem] at he
    rw [he]
    rfl

/-- C4 witness: a concrete unparsable file is recorded as an error record. -/
theorem C4_error_record_witness :
    (analyze_all_cboms "cdxgen" [("repo1", .error "JSONDecodeError")]).length =
      [("repo1", (.error "JSONDecodeError" : Except String Json))].length ∧
    (analyze_all_cboms "cdxgen" [("repo1", .error "JSONDecodeError")]).get
        ⟨0, by decide⟩ =
      ("repo1", { total_components := 0, is_empty := true, component_types := [],
                  error := some "JSONDecodeError" }) := by
  have h := C4_error_record "cdxgen" [("repo1", .error "JSONDecodeError")]
  exact ⟨h.1, h.2 0 (by decide) (by decide) "JSONDecodeError" (by decide)⟩

/-- C5: the returned `total_components` is the length of the iterated
component list (a natural number, hence non-negative); when the payload
supplies a `components` array in the tool's expected shape — top-level for
cdxgen/deepseek, under the first list element's non-empty `bom` dict for
cbomkit — it equals that array's length. -/
theorem C5_total_components_length :
    (∀ (cbom_data : Json) (tool_name : String) (a : Analysis),
        analyze_single_cbom cbom_data tool_name = .ok a →
        (∃ comps, Json.iterate (extract_components cbom_data tool_name) = .ok comps ∧
          a.total_components = comps.length) ∧ 0 ≤ a.total_components) ∧
    (∀ (kvs : List (String × Json)) (xs : List Json) (tool_name : String) (a : Analysis),
        isCdxTool tool_name = true →
        Json.lookup "components" kvs = some (.arr xs) →
        analyze_single_cbom (.obj kvs) tool_name = .ok a →
        a.total_components = xs.length) ∧
    (∀ (kvs bkvs : List (String × Json)) (xs rest : List Json)
        (tool_name : String) (a : Analysis),
        isCdxTool tool_name = false →
        Json.lookup "bom" kvs = some (.obj bkvs) → bkvs ≠ [] →
        Json.lookup "components" bkvs = some (.arr xs) →
        analyze_single_cbom (.arr (.obj kvs :: rest)) tool_name = .ok a →
        a.total_components = xs.length) := by
  refine ⟨?_, ?_, ?_⟩
  · intro j t a h
    obtain ⟨comps, types, hi, ht, rfl⟩ := analyze_single_cbom_ok_inv h
    exact ⟨⟨comps, hi, rfl⟩, Nat.zero_le _⟩
  · intro kvs xs t a hT hc h
    obtain ⟨comps, types, hi, ht, rfl⟩ := analyze_single_cbom_ok_inv h
    rw [show extract_components (.obj kvs) t = .arr xs by
          simp [extract_components, hT, Json.getD, hc]] at hi
    simp only [Json.iterate, Except.ok.injEq] at hi
    simp [hi]
  · intro kvs bkvs xs rest t a hT hb hne hc h
    obtain ⟨comps, types, hi, ht, rfl⟩ := analyze_single_cbom_ok_inv h
    rw [show extract_components (.arr (.obj kvs :: rest)) t = .arr xs by
          simp [extract_components, hT, cbomkitTryExtract, hb, hne, Json.getD, hc]] at hi
    simp only [Json.iterate, Except.ok.injEq] at hi
    simp [hi]

/-- C5 witness: the cdxgen shape at a concrete two-element components
array. -/
theorem C5_total_components_length_witness :
    ({ total_components := 2, is_empty := false,
       component_types := [(.str "unknown", 2)] : Analysis }).total_components =
      [Json.null, Json.null].length :=
  C5_total_components_length.2.1 [("components", .arr [.null, .null])]
    [.null, .null] "cdxgen"
    { total_components := 2, is_empty := false, component_types := [(.str "unknown", 2)] }
    (by decide) (by decide) (by decide)

/-- The extraction rules exactly as the specification states them: for
cdxgen/deepseek the top-level `components` value of a dict payload (empty
otherwise); for any other tool, when the payload is a non-empty list whose
first element is a dict holding a dict under `bom`, bom's `components` value
(empty otherwise). -/
def extract_components_spec (cbom_data : Json) (tool_name : String) : Json :=
  if isCdxTool tool_name then
    match cbom_data with
    | .obj kvs => Json.getD kvs "components" (.arr [])
    | _ => .arr []
  else
    match cbom_data with
    | .arr (x :: _) =>
      match x with
      | .obj kvs =>
        match Json.lookup "bom" kvs with
        | some (.obj bkvs) => Json.getD bkvs "components" (.arr [])
        | _ => .arr []
      | _ => .arr []
    | _ => .arr []

/-- C6: the component list extracted by `analyze_single_cbom` follows the
tool-specific shape rules of the specification, for every payload and tool.
(The code additionally skips a falsy — empty — `bom` dict, but an empty dict
has no `components` key, so both readings extract the empty list there.) -/
theorem C6_extraction_shape (cbom_data : Json) (tool_name : String) :
    extract_components cbom_data tool_name = extract_components_spec cbom_data tool_name := by
  by_cases hT : isCdxTool tool_name
  · cases cbom_data <;> simp [extract_components, extract_components_spec, hT]
  · simp only [Bool.not_eq_true] at hT
    cases cbom_data with
    | arr xs =>
      cases xs with
      | nil => simp [extract_components, extract_components_spec, hT, cbomkitTryExtract]
      | cons x rest =>
        cases x with
        | obj kvs =>
          cases hb : Json.lookup "bom" kvs with
          | none =>
            simp [extract_components, extract_components_spec, hT, cbomkitTryExtract, hb]
          | some v =>
            cases v with
            | obj bkvs =>
              by_cases hbe : bkvs.isEmpty
              · have : bkvs = [] := by simpa [List.isEmpty_iff] using hbe
                subst this
                simp [extract_components, extract_components_spec, hT,
                  cbomkitTryExtract, hb, Json.getD, Json.lookup]
              · simp [extract_components, extract_components_spec, hT,
                  cbomkitTryExtract, hb, hbe]
            | null =>
              simp [extract_components, extract_components_spec, hT, cbomkitTryExtract, hb]
            | bool b =>
              simp [extract_components, extract_components_spec, hT, cbomkitTryExtract, hb]
            | num q =>
              simp [extract_components, extract_components_spec, hT, cbomkitTryExtract, hb]
            | str s =>
              simp [extract_components, extract_components_spec, hT, cbomkitTryExtract, hb]
            | arr ys =>
              simp [extract_components, extract_components_spec, hT, cbomkitTryExtract, hb]
        | null => simp [extract_components, extract_components_spec, hT, cbomkitTryExtract]
        | bool b => simp [extract_components, extract_components_spec, hT, cbomkitTryExtract]
        | num q => simp [extract_components, extract_components_spec, hT, cbomkitTryExtract]
        | str s => simp [extract_components, extract_components_spec, hT, cbomkitTryExtract]
        | arr ys => simp [extract_components, extract_components_spec, hT, cbomkitTryExtract]
    | null => simp [extract_components, extract_components_spec, hT, cbomkitTryExtract]
    | bool b => simp [extract_components, extract_components_spec, hT, cbomkitTryExtract]
    | num q => simp [extract_components, extract_components_spec, hT, cbomkitTryExtract]
    | str s => simp [extract_components, extract_components_spec, hT, cbomkitTryExtract]
    | obj kvs => simp [extract_components, extract_components_spec, hT, cbomkitTryExtract]

/-- C10 witness: the cbomkit analysis of a concrete dict payload that does
carry a top-level `components` array is nevertheless empty. -/
theorem C10_cbomkit_dict_payload_empty_witness :
    analyze_single_cbom
        (.obj [("components", .arr [.obj [("type", .str "algorithm")]])]) "cbomkit" =
      .ok { total_components := 0, is_empty := true, component_types := [] } :=
  C10_cbomkit_dict_payload_empty.1
    [("components", .arr [.obj [("type", .str "algorithm")]])] "cbomkit" (by decide)

/-- C3: the sum of the per-type counts equals the component total — for
every record stored by `analyze_all_cboms` (normal and error records alike),
this is carried unchanged onto the report rows by the join, and the per-tool
aggregation of `_calculate_statistics` preserves it: the aggregated
`component_types` counts sum to the tool's `total_components`. -/
theorem C3_type_sum_invariant :
    (∀ (tool : String) (files : List (String × Except String Json))
        (e : String × Analysis), e ∈ analyze_all_cboms tool files →
        Counter.total e.2.component_types = e.2.total_components) ∧
    (∀ cd (et : Json) rs (rows : List ResultRow), build_results cd et rs = .ok rows →
        (∀ rd ∈ cd, ∀ td ∈ rd.2,
          Counter.total td.2.component_types = td.2.total_components) →
        ∀ r ∈ rows, Counter.total r.Component_Types = r.Total_Components) ∧
    (∀ (rows : List ResultRow) (tool : String) (s : ToolStats),
        (tool, s) ∈ calculate_statistics rows →
        (∀ r ∈ toolRows rows tool,
          Counter.total r.Component_Types = r.Total_Components) →
        Counter.total s.component_types = s.total_components) := by
  refine ⟨?_, ?_, ?_⟩
  · intro tool files e he
    simp only [analyze_all_cboms, List.mem_map] at he
    obtain ⟨file, hf, rfl⟩ := he
    cases hm : file.2 >>= (analyze_single_cbom · tool) with
    | ok a =>
      simp only [hm]
      cases hp : file.2 with
      | error e2 => rw [hp] at hm; simp [Bind.bind, Except.bind] at hm
      | ok j =>
        rw [hp] at hm
        simp only [Bind.bind, Except.bind] at hm
        obtain ⟨comps, types, hi, ht, rfl⟩ := analyze_single_cbom_ok_inv hm
        have := tally_types_ok_total tool comps [] types ht
        simpa [Counter.total_nil] using this
    | error e2 => simp [hm, errorRecord, Counter.total]
  · intro cd et rs rows hok hinv r hr
    rw [build_results_ok_inv hok] at hr
    rw [List.mem_flatten] at hr
    obtain ⟨block, hblock, hrb⟩ := hr
    rw [List.mem_map] at hblock
    obtain ⟨rd, hrd, rfl⟩ := hblock
    rw [List.mem_map] at hrb
    obtain ⟨td, htd, rfl⟩ := hrb
    exact hinv rd hrd td htd
  · intro rows tool s hs hinv
    simp only [calculate_statistics, List.mem_filterMap, Option.map_eq_some'] at hs
    obtain ⟨t, ht, st, hcs, heq⟩ := hs
    have ht2 : t = tool := congrArg Prod.fst heq
    have hst : st = s := congrArg Prod.snd heq
    rw [ht2, hst] at hcs
    simp only [calc_tool_stats] at hcs
    by_cases hE : (toolRows rows tool).isEmpty
    · rw [if_pos hE] at hcs
      exact absurd hcs (by simp)
    · rw [if_neg hE] at hcs
      simp only [Option.some.injEq] at hcs
      rw [← hcs]
      have := total_foldl_update (toolRows rows tool) [] hinv
      simpa [Counter.total_nil] using this

/-- C3 witness: the invariant at a concrete stored error record. -/
theorem C3_type_sum_invariant_witness :
    Counter.total (errorRecord "boom").component_types =
      (errorRecord "boom").total_components :=
  C3_type_sum_invariant.1 "cdxgen" [("r", .error "boom")] ("r", errorRecord "boom")
    (by decide)

theorem filter_block_other_repo (et : Json) (rs : List (String × (Option ℚ × Option ℚ)))
    (repo : String) (tds : List (String × Analysis)) (repo' tool' : String)
    (hne : repo ≠ repo') :
    (tds.map fun td => joined_row et rs repo td.1 td.2).filter
      (fun r => r.Repository == repo' && r.Tool == tool') = [] := by
  induction tds with
  | nil => rfl
  | cons td rest ih =>
    have hb : (repo == repo') = false := by
      simp [hne]
    simp only [List.map_cons, List.filter_cons, joined_row, hb, Bool.false_and,
      Bool.false_eq_true, if_false]
    exact ih

theorem filter_block_same_repo (et : Json) (rs : List (String × (Option ℚ × Option ℚ)))
    (repo : String) (tds : List (String × Analysis)) (tool' : String)
    (hno : tool' ∉ tds.map Prod.fst) :
    (tds.map fun td => joined_row et rs repo td.1 td.2).filter
      (fun r => r.Repository == repo && r.Tool == tool') = [] := by
  induction tds with
  | nil => rfl
  | cons td rest ih =>
    rw [List.map_cons, List.mem_cons, not_or] at hno
    obtain ⟨h1, h2⟩ := hno
    rw [List.map_cons, List.filter_cons]
    have hb : (((joined_row et rs repo td.1 td.2).Repository == repo) &&
        ((joined_row et rs repo td.1 td.2).Tool == tool')) = false := by
      have h3 : (td.1 == tool') = false := by
        rw [beq_eq_false_iff_ne]
        exact fun h => h1 h.symm
      simp [joined_row, h3]
    rw [hb]
    simp only [Bool.false_eq_true, if_false]
    exact ih h2

theorem filter_block_found (et : Json) (rs : List (String × (Option ℚ × Option ℚ)))
    (repo : String) (tds : List (String × Analysis)) (td : String × Analysis)
    (htd : td ∈ tds) (hnd : (tds.map Prod.fst).Nodup) :
    (tds.map fun td2 => joined_row et rs repo td2.1 td2.2).filter
      (fun r => r.Repository == repo && r.Tool == td.1) =
      [joined_row et rs repo td.1 td.2] := by
  induction tds with
  | nil => cases htd
  | cons td0 rest ih =>
    rw [List.map_cons, List.nodup_cons] at hnd
    obtain ⟨hn0, hndr⟩ := hnd
    rw [List.map_cons, List.filter_cons]
    rcases List.mem_cons.mp htd with h | h
    · subst h
      have hb : (((joined_row et rs repo td.1 td.2).Repository == repo) &&
          ((joined_row et rs repo td.1 td.2).Tool == td.1)) = true := by
        simp [joined_row]
      rw [hb, if_pos rfl, filter_block_same_repo et rs repo rest td.1 hn0]
    · have hne : (td0.1 == td.1) = false := by
        rw [beq_eq_false_iff_ne]
        exact fun hEq => hn0 (hEq ▸ List.mem_map_of_mem Prod.fst h)
      have hb : (((joined_row et rs repo td0.1 td0.2).Repository == repo) &&
          ((joined_row et rs repo td0.1 td0.2).Tool == td.1)) = false := by
        simp [joined_row, hne]
      rw [hb]
      simp only [Bool.false_eq_true, if_false]
      exact ih h hndr

theorem filter_flatten_norepo (et : Json) (rs : List (String × (Option ℚ × Option ℚ)))
    (cd : List (String × List (String × Analysis))) (repo' tool' : String)
    (hno : repo' ∉ cd.map Prod.fst) :
    ((cd.map fun rd => rd.2.map fun td => joined_row et rs rd.1 td.1 td.2).flatten).filter
      (fun r => r.Repository == repo' && r.Tool == tool') = [] := by
  induction cd with
  | nil => rfl
  | cons rd0 rest ih =>
    rw [List.map_cons, List.mem_cons, not_or] at hno
    obtain ⟨h1, h2⟩ := hno
    rw [List.map_cons, List.flatten_cons, List.filter_append,
      filter_block_other_repo et rs rd0.1 rd0.2 repo' tool' (fun h => h1 h.symm),
      ih h2]
    rfl

theorem filter_flatten_found (et : Json) (rs : List (String × (Option ℚ × Option ℚ)))
    (cd : List (String × List (String × Analysis)))
    (rd : String × List (String × Analysis)) (td : String × Analysis)
    (hrd : rd ∈ cd) (htd : td ∈ rd.2)
    (hnd : (cd.map Prod.fst).Nodup) (hndi : (rd.2.map Prod.fst).Nodup) :
    ((cd.map fun rd2 => rd2.2.map fun td2 => joined_row et rs rd2.1 td2.1 td2.2).flatten).filter
      (fun r => r.Repository == rd.1 && r.Tool == td.1) =
      [joined_row et rs rd.1 td.1 td.2] := by
  induction cd with
  | nil => cases hrd
  | cons rd0 rest ih =>
    rw [List.map_cons, List.nodup_cons] at hnd
    obtain ⟨hn0, hndr⟩ := hnd
    rw [List.map_cons, List.flatten_cons, List.filter_append]
    rcases List.mem_cons.mp hrd with h | h
    · subst h
      rw [filter_block_found et rs rd.1 rd.2 td htd hndi,
        filter_flatten_norepo et rs rest rd.1 td.1 hn0]
      rfl
    · have hne : rd0.1 ≠ rd.1 :=
        fun hEq => hn0 (hEq ▸ List.mem_map_of_mem Prod.fst h)
      rw [filter_block_other_repo et rs rd0.1 rd0.2 rd.1 td.1 hne, ih h hndr]
      rfl

/-- C7: on a successful join, each (repository, tool) pair of the analysis
data yields exactly one flat record (given the dict-key uniqueness the
source's dicts guarantee); that record's `Execution_Time` is the metrics'
`duration` value for the pair — `None` when the repository or the tool has
no metrics entry or the entry lacks `duration` — and its sizes come from the
size lookup for the repository, `None` when absent; a missing metrics or
size entry never fails the join. -/
theorem C7_report_join
    (cd : List (String × List (String × Analysis))) (et : Json)
    (rs : List (String × (Option ℚ × Option ℚ))) (rows : List ResultRow)
    (hok : build_results cd et rs = .ok rows)
    (hnd : (cd.map Prod.fst).Nodup) :
    (∀ rd ∈ cd, ∀ td ∈ rd.2, (rd.2.map Prod.fst).Nodup →
        rows.filter (fun r => r.Repository == rd.1 && r.Tool == td.1) =
          [joined_row et rs rd.1 td.1 td.2]) ∧
    (∀ (repo tool : String) (data : Analysis),
        (joined_row et rs repo tool data).Execution_Time = durationOf et repo tool ∧
        (joined_row et rs repo tool data).Total_Components = data.total_components ∧
        (joined_row et rs repo tool data).Is_Empty = data.is_empty ∧
        (joined_row et rs repo tool data).Repository_Size =
          ((lookupKey repo rs).getD (none, none)).1 ∧
        (joined_row et rs repo tool data).Java_Size =
          ((lookupKey repo rs).getD (none, none)).2) ∧
    (∀ (repo tool : String) (m : List (String × Json)), et = .obj m →
        Json.lookup repo m = none → lookup_duration et repo tool = .ok none) ∧
    (∀ (repo tool : String) (m rkvs tkvs : List (String × Json)), et = .obj m →
        Json.lookup repo m = some (.obj rkvs) →
        Json.lookup tool rkvs = some (.obj tkvs) →
        lookup_duration et repo tool = .ok (Json.lookup "duration" tkvs)) ∧
    (∀ (repo tool : String) (d : Option Json),
        lookup_duration et repo tool = .ok d → durationOf et repo tool = d) := by
  refine ⟨?_, ?_, ?_, ?_, ?_⟩
  · intro rd hrd td htd hndi
    rw [build_results_ok_inv hok]
    exact filter_flatten_found et rs cd rd td hrd htd hnd hndi
  · intro repo tool data
    exact ⟨rfl, rfl, rfl, rfl, rfl⟩
  · intro repo tool m hm hno
    subst hm
    simp [lookup_duration, pyGetD, pyGet, Json.getD, hno, Json.lookup,
      Bind.bind, Except.bind]
  · intro repo tool m rkvs tkvs hm hr ht2
    subst hm
    simp [lookup_duration, pyGetD, pyGet, Json.getD, hr, ht2, Bind.bind, Except.bind]
  · intro repo tool d hd
    unfold durationOf
    rw [hd]

/-- C7 witness: a concrete one-pair join with empty metrics and no size
data. -/
theorem C7_report_join_witness :
    [joined_row (.obj []) [] "r" "cdxgen" (errorRecord "x")].filter
        (fun r => r.Repository == "r" && r.Tool == "cdxgen") =
      [joined_row (.obj []) [] "r" "cdxgen" (errorRecord "x")] :=
  (C7_report_join [("r", [("cdxgen", errorRecord "x")])] (.obj []) []
      [joined_row (.obj []) [] "r" "cdxgen" (errorRecord "x")]
      (by decide) (by decide)).1
    ("r", [("cdxgen", errorRecord "x")]) (by decide) ("cdxgen", errorRecord "x")
    (by decide) (by decide)

/-- C8: for each tool with at least one record, the summary satisfies:
`total_repos` is the number of the tool's rows; `empty_cboms` counts the
rows flagged empty and `non_empty_cboms` the others; `empty_percentage`
times the row count is 100 times the empty count; `avg_components` times
the row count is the sum of `Total_Components` (i.e. it is their mean),
and `avg_components_non_empty` likewise over the non-empty rows (0 when
there are none); `total_components` is the sum; `avg_execution_time` is the
mean of the present execution-time values, missing values ignored (`none`
when there are no values), and `execution_time_var` — the square of the
source's `execution_time_std` — is their sample variance (`ddof=1`; `none`
with fewer than two values). -/
theorem C8_statistics (rows : List ResultRow) (tool : String) (s : ToolStats)
    (h : (tool, s) ∈ calculate_statistics rows) :
    0 < (toolRows rows tool).length ∧
    s.total_repos = (toolRows rows tool).length ∧
    s.empty_cboms = (emptyRows (toolRows rows tool)).length ∧
    s.non_empty_cboms = (nonEmptyRows (toolRows rows tool)).length ∧
    s.empty_percentage * ((toolRows rows tool).length : ℚ) =
      100 * ((emptyRows (toolRows rows tool)).length : ℚ) ∧
    s.avg_components * ((toolRows rows tool).length : ℚ) =
      ((((toolRows rows tool).map fun r => r.Total_Components).sum : ℕ) : ℚ) ∧
    (nonEmptyRows (toolRows rows tool) ≠ [] →
      s.avg_components_non_empty * ((nonEmptyRows (toolRows rows tool)).length : ℚ) =
        ((((nonEmptyRows (toolRows rows tool)).map fun r => r.Total_Components).sum : ℕ) : ℚ)) ∧
    (nonEmptyRows (toolRows rows tool) = [] → s.avg_components_non_empty = 0) ∧
    s.total_components = ((toolRows rows tool).map fun r => r.Total_Components).sum ∧
    (execTimes (toolRows rows tool) = [] → s.avg_execution_time = none) ∧
    (execTimes (toolRows rows tool) ≠ [] →
      ∃ m, s.avg_execution_time = some m ∧
        m * ((execTimes (toolRows rows tool)).length : ℚ) =
          (execTimes (toolRows rows tool)).sum) ∧
    ((execTimes (toolRows rows tool)).length < 2 → s.execution_time_var = none) ∧
    (2 ≤ (execTimes (toolRows rows tool)).length →
      ∃ v, s.execution_time_var = some v ∧
        v * (((execTimes (toolRows rows tool)).length : ℚ) - 1) =
          ((execTimes (toolRows rows tool)).map fun x =>
            (x - (execTimes (toolRows rows tool)).sum /
              ((execTimes (toolRows rows tool)).length : ℚ)) ^ 2).sum) := by
  simp only [calculate_statistics, List.mem_filterMap, Option.map_eq_some'] at h
  obtain ⟨t, ht, st, hcs, heq⟩ := h
  have ht2 : t = tool := congrArg Prod.fst heq
  have hst : st = s := congrArg Prod.snd heq
  rw [ht2, hst] at hcs
  simp only [calc_tool_stats] at hcs
  by_cases hE : (toolRows rows tool).isEmpty
  · rw [if_pos hE] at hcs
    exact absurd hcs (by simp)
  · rw [if_neg hE] at hcs
    simp only [Option.some.injEq] at hcs
    have hne : toolRows rows tool ≠ [] := fun h0 => hE (by simp [h0])
    have hlen : (toolRows rows tool).length ≠ 0 := by
      simpa [List.length_eq_zero] using hne
    have hlenQ : (((toolRows rows tool).length : ℕ) : ℚ) ≠ 0 := Nat.cast_ne_zero.mpr hlen
    rw [← hcs]
    refine ⟨Nat.pos_of_ne_zero hlen, rfl, rfl, rfl, ?_, ?_, ?_, ?_, rfl, ?_, ?_, ?_, ?_⟩
    · field_simp
      ring
    · exact div_mul_cancel₀ _ hlenQ
    · intro hne2
      have hlen2 : (((nonEmptyRows (toolRows rows tool)).length : ℕ) : ℚ) ≠ 0 :=
        Nat.cast_ne_zero.mpr (by simpa [List.length_eq_zero] using hne2)
      rw [if_neg (by simp [hne2])]
      exact div_mul_cancel₀ _ hlen2
    · intro h0
      rw [if_pos (by simp [h0])]
    · intro h0
      simp [pandasMean, h0]
    · intro hne3
      refine ⟨(execTimes (toolRows rows tool)).sum /
          ((execTimes (toolRows rows tool)).length : ℚ), ?_, ?_⟩
      · simp [pandasMean, hne3]
      · exact div_mul_cancel₀ _
          (Nat.cast_ne_zero.mpr (by simpa [List.length_eq_zero] using hne3))
    · intro hlt
      simp [pandasVar, hlt]
    · intro hge
      have hd : (((execTimes (toolRows rows tool)).length : ℕ) : ℚ) - 1 ≠ 0 := by
        have h2 : (2 : ℚ) ≤ (((execTimes (toolRows rows tool)).length : ℕ) : ℚ) := by
          exact_mod_cast hge
        intro h0
        rw [sub_eq_zero] at h0
        rw [h0] at h2
        norm_num at h2
      refine ⟨_, ?_, div_mul_cancel₀ _ hd⟩
      simp [pandasVar, Nat.not_lt.mpr hge]

/-- A concrete two-row cdxgen table: one empty record and one with four
components, execution times 1 and 3 seconds. -/
def c8rows : List ResultRow := [
 { Repository := "a", Tool := "cdxgen", Total_Components := 0, Is_Empty := true,
   Execution_Time := some (.num 1), Component_Types := [], Repository_Size := none,
   Java_Size := none },
 { Repository := "b", Tool := "cdxgen", Total_Components := 4, Is_Empty := false,
   Execution_Time := some (.num 3), Component_Types := [(.str "algorithm", 4)],
   Repository_Size := none, Java_Size := none }]

/-- The summary `_calculate_statistics` computes for `c8rows`. -/
def c8stats : ToolStats :=
  { total_repos := 2, empty_cboms := 1, non_empty_cboms := 1, empty_percentage := 50,
    avg_components := 2, avg_components_non_empty := 4, total_components := 4,
    avg_execution_time := some 2, execution_time_var := some 2,
    component_types := [(.str "algorithm", 4)] }

/-- C8 witness: the statistics of the concrete table `c8rows`: `total_repos`
equals the number of the tool's rows. -/
theorem C8_statistics_witness :
    c8stats.total_repos = (toolRows c8rows "cdxgen").length := by
  have hmem : ("cdxgen", c8stats) ∈ calculate_statistics c8rows := by
    have hcs : calc_tool_stats c8rows "cdxgen" = some c8stats := by
      norm_num [calc_tool_stats, c8rows, c8stats, toolRows, nonEmptyRows, emptyRows,
        execTimes, pandasMean, pandasVar, Counter.update, Counter.addEntry, Json.numVal,
        List.filterMap_cons, List.filterMap_nil, Option.bind]
    have hcb : calc_tool_stats c8rows "cbomkit" = none := by
      have ht0 : toolRows c8rows "cbomkit" = [] := by decide
      simp [calc_tool_stats, ht0]
    have hds : calc_tool_stats c8rows "deepseek" = none := by
      have ht0 : toolRows c8rows "deepseek" = [] := by decide
      simp [calc_tool_stats, ht0]
    simp [calculate_statistics, TOOL_NAMES, hcs, hcb, hds, List.filterMap_cons,
      List.filterMap_nil]
  exact (C8_statistics c8rows "cdxgen" c8stats hmem).2.1

theorem hasTU_type_append (t : List Char) :
    hasTU ('T' :: 'y' :: 'p' :: 'e' :: '_' :: t) = true := rfl

theorem type_append_data (s : String) :
    ("Type_" ++ s).data = 'T' :: 'y' :: 'p' :: 'e' :: '_' :: s.data := rfl

theorem stripTU_of_not_contains (l : List Char) (h : containsTU l = false) :
    stripTU l = l := by
  induction l with
  | nil => rw [stripTU]
  | cons c rest ih =>
    simp only [containsTU, Bool.or_eq_false_iff] at h
    rw [stripTU, if_neg (by rw [h.1]; exact Bool.false_ne_true), ih h.2]

theorem stripTU_type_append (t : List Char) (h : containsTU t = false) :
    stripTU ('T' :: 'y' :: 'p' :: 'e' :: '_' :: t) = t := by
  rw [stripTU, if_pos (hasTU_type_append t)]
  show stripTU t = t
  exact stripTU_of_not_contains t h

theorem sStartsTU_type_append (s : String) : sStartsTU ("Type_" ++ s) = true := by
  rw [sStartsTU, type_append_data]
  exact hasTU_type_append s.data

theorem sStripTU_type_append (s : String) (h : sContainsTU s = false) :
    sStripTU ("Type_" ++ s) = s := by
  rw [sStripTU, type_append_data, stripTU_type_append s.data h]

theorem lookupKey_mem_keys {α : Type} (k : String) (l : List (String × α)) (v : α)
    (h : lookupKey k l = some v) : k ∈ l.map Prod.fst := by
  induction l with
  | nil => simp [lookupKey] at h
  | cons kv rest ih =>
    rw [lookupKey] at h
    by_cases hk : kv.1 = k
    · simp [hk]
    · rw [if_neg hk] at h
      simp [ih h]

theorem lookupKey_reconstruct (c : TypeCounter) (k : String) (cols : List String)
    (hcols : ∀ col ∈ cols, sContainsTU col = false) :
    lookupKey k (cols.filterMap fun col =>
        if sStartsTU ("Type_" ++ col) && decide (0 < (lookupKey col c).getD 0)
        then some (sStripTU ("Type_" ++ col), (lookupKey col c).getD 0) else none) =
      if k ∈ cols ∧ 0 < (lookupKey k c).getD 0
      then some ((lookupKey k c).getD 0) else none := by
  induction cols with
  | nil => simp [lookupKey]
  | cons col rest ih =>
    have hc0 : sContainsTU col = false := hcols col (List.mem_cons_self col rest)
    have hrest : ∀ x ∈ rest, sContainsTU x = false :=
      fun x hx => hcols x (List.mem_cons_of_mem col hx)
    by_cases hv : 0 < (lookupKey col c).getD 0
    · have hf : (if sStartsTU ("Type_" ++ col) && decide (0 < (lookupKey col c).getD 0)
          then some (sStripTU ("Type_" ++ col), (lookupKey col c).getD 0) else none)
          = some (col, (lookupKey col c).getD 0) := by
        rw [sStartsTU_type_append col, sStripTU_type_append col hc0]
        simp [hv]
      simp only [List.filterMap_cons, hf]
      rw [lookupKey]
      by_cases hk : col = k
      · subst hk
        rw [if_pos rfl, if_pos ⟨List.mem_cons_self col rest, hv⟩]
      · have hkc : ¬ (k = col) := fun h => hk h.symm
        rw [if_neg hk, ih hrest]
        simp [List.mem_cons, hkc]
    · have hf : (if sStartsTU ("Type_" ++ col) && decide (0 < (lookupKey col c).getD 0)
          then some (sStripTU ("Type_" ++ col), (lookupKey col c).getD 0) else none)
          = none := by
        rw [sStartsTU_type_append col]
        simp [hv]
      simp only [List.filterMap_cons, hf]
      rw [ih hrest]
      by_cases hk : k = col
      · subst hk
        simp [hv]
      · simp [List.mem_cons, hk]

/-- C9: exporting a results table with `export_to_csv` — which flattens each
row's `Component_Types` into `Type_`-prefixed integer columns over the union
of all type names, filling absent names with 0 — and reconstructing with
`load_and_visualize_csv` recovers, for every row, exactly the strictly
positive type counts of the original counter, provided no type name contains
the substring `Type_` (Python's `col.replace('Type_', '')` strips every
occurrence). -/
theorem C9_csv_roundtrip (table : List TypeCounter)
    (hT : ∀ c ∈ table, ∀ kv ∈ c, sContainsTU kv.1 = false) :
    (roundTripTypes table).length = table.length ∧
    ∀ (i : ℕ) (hi : i < (roundTripTypes table).length) (hi2 : i < table.length)
      (k : String),
      lookupKey k (roundTripTypes table)[i] =
        (match lookupKey k table[i] with
         | some n => if 0 < n then some n else none
         | none => none) := by
  constructor
  · simp [roundTripTypes, export_to_csv_types]
  · intro i hi hi2 k
    have hrow : (roundTripTypes table)[i] =
        load_row_types (export_type_cells (typeCols table) table[i]) := by
      simp [roundTripTypes, export_to_csv_types]
    rw [hrow]
    have hcols : ∀ col ∈ typeCols table, sContainsTU col = false := by
      intro col hcol
      rw [typeCols, List.mem_dedup, List.mem_flatten] at hcol
      obtain ⟨keys, hk1, hk2⟩ := hcol
      rw [List.mem_map] at hk1
      obtain ⟨c, hc, rfl⟩ := hk1
      rw [List.mem_map] at hk2
      obtain ⟨kv, hkv, rfl⟩ := hk2
      exact hT c hc kv hkv
    have hload : load_row_types (export_type_cells (typeCols table) table[i]) =
        (typeCols table).filterMap fun col =>
          if sStartsTU ("Type_" ++ col) && decide (0 < (lookupKey col table[i]).getD 0)
          then some (sStripTU ("Type_" ++ col), (lookupKey col table[i]).getD 0)
          else none := by
      rw [load_row_types, export_type_cells, List.filterMap_map]
      rfl
    rw [hload, lookupKey_reconstruct table[i] k (typeCols table) hcols]
    cases hlk : lookupKey k table[i] with
    | none => simp [hlk]
    | some n =>
      have hmem : k ∈ typeCols table := by
        rw [typeCols, List.mem_dedup, List.mem_flatten]
        exact ⟨(table[i]).map Prod.fst,
          List.mem_map_of_mem (fun c => c.map Prod.fst) (List.getElem_mem hi2),
          lookupKey_mem_keys k table[i] n hlk⟩
      simp [hlk, hmem]

/-- C9 witness: the round trip at a concrete one-row table with a single
positive count. -/
theorem C9_csv_roundtrip_witness :
    lookupKey "algorithm"
        (GetElem.getElem (roundTripTypes [[("algorithm", 3)]]) 0 (by decide)) =
      (match lookupKey "algorithm"
          (GetElem.getElem ([[("algorithm", 3)]] : List TypeCounter) 0 (by decide)) with
       | some n => if 0 < n then some n else none
       | none => none) :=
  (C9_csv_roundtrip [[("algorithm", 3)]] (by decide)).2 0 (by decide) (by decide)
    "algorithm"
